import Mathlib

/-!
Verification development for the helios trading bot.

Shallow embedding of the strategy signal state machine
(src/strategies/base.py, src/strategies/composite.py), the swap
execution protocol (src/blockchain/trader.py), confirmation polling
(src/blockchain/client.py), state persistence (src/utils/state.py) and
the pre-flight balance check (src/blockchain/wallet.py, src/main.py).

Prices, balances and strategy weights are modelled as rationals; network
and file-system effects are modelled as explicit environments (functions
from request indices to results); Python functions that swallow
exceptions and return None are modelled as Option-valued functions.
-/

namespace Helios

/-- Trading signals (base.py, class Signal). -/
inductive Signal
  | buy
  | sell
  | hold
deriving DecidableEq, Repr

/-- Position states (base.py, class Position). -/
inductive Position
  | flat
  | long
deriving DecidableEq, Repr

/-- The mutable attributes of a BaseStrategy that get_signal reads,
together with an opaque payload for subclass-specific internal state. -/
structure StratData (σ : Type) where
  position : Position
  entryPrice : Option ℚ
  internal : σ

/-- An arbitrary concrete strategy: implementations of the abstract
methods update, should_buy, should_sell of BaseStrategy.  update may
rewrite the whole state (subclasses mutate self freely); the predicates
are read-only queries as in every strategy shipped with the repository. -/
structure StrategyImpl (σ : Type) where
  update : StratData σ → ℚ → StratData σ
  shouldBuy : StratData σ → ℚ → Bool
  shouldSell : StratData σ → ℚ → Bool

/-- BaseStrategy.get_signal (base.py lines 86-106), instrumented with
which of the two predicates were consulted.  Mirrors the Python
short-circuit evaluation: `self.position == FLAT and self.should_buy(p)`
consults should_buy only when the position is FLAT, and the second
conditional `self.position == LONG and self.should_sell(p)` is reached
only when the first was false and consults should_sell only when LONG.
Returns (signal, consultedBuy, consultedSell). -/
def getSignalTraced {σ : Type} (impl : StrategyImpl σ) (s : StratData σ)
    (price : ℚ) : Signal × Bool × Bool :=
  let t := impl.update s price
  if t.position = Position.flat then
    if impl.shouldBuy t price then (Signal.buy, true, false)
    else (Signal.hold, true, false)
  else
    if impl.shouldSell t price then (Signal.sell, false, true)
    else (Signal.hold, false, true)

/-- BaseStrategy.get_signal: the returned signal alone. -/
def getSignal {σ : Type} (impl : StrategyImpl σ) (s : StratData σ)
    (price : ℚ) : Signal :=
  (getSignalTraced impl s price).1

/-- Signal-combination modes (composite.py, class CompositeMode). -/
inductive CompositeMode
  | all
  | any
  | majority
  | weighted
deriving DecidableEq, Repr

/-- Weighted vote score: sum of the weights paired with the true votes
(composite.py lines 112-115, the zip of signals and weights). -/
def weightedScore (signals : List Bool) (weights : List ℚ) : ℚ :=
  ((signals.zip weights).map (fun p => if p.1 then p.2 else 0)).sum

/-- The signal-combination logic shared by CompositeStrategy.should_buy
(lines 89-120) and CompositeStrategy.should_sell (lines 132-159): the
sub-strategy votes are collected into a list and combined per mode. -/
def combineSignals (mode : CompositeMode) (signals : List Bool)
    (weights : List ℚ) : Bool :=
  match mode with
  | CompositeMode.all => signals.all id
  | CompositeMode.any => signals.any id
  | CompositeMode.majority =>
      decide ((signals.count true : ℚ) > (signals.length : ℚ) / 2)
  | CompositeMode.weighted => decide (weightedScore signals weights > 1 / 2)

/-- A composite strategy as evaluated by should_buy/should_sell: the
per-price buy and sell votes of the sub-strategies, the mode and the
weights. -/
structure CompositeStrategy where
  subsBuy : List (ℚ → Bool)
  subsSell : List (ℚ → Bool)
  mode : CompositeMode
  weights : List ℚ

/-- CompositeStrategy.should_buy (composite.py lines 79-120). -/
def CompositeStrategy.shouldBuy (c : CompositeStrategy) (price : ℚ) : Bool :=
  combineSignals c.mode (c.subsBuy.map (fun f => f price)) c.weights

/-- CompositeStrategy.should_sell (composite.py lines 122-159). -/
def CompositeStrategy.shouldSell (c : CompositeStrategy) (price : ℚ) : Bool :=
  combineSignals c.mode (c.subsSell.map (fun f => f price)) c.weights

/-- CompositeStrategy.__init__ validation (composite.py lines 46-62):
true iff construction succeeds (no ValueError raised).  numStrategies is
the length of the strategies list; weights is None or a list (Python
`not weights` is true for both None and the empty list). -/
def compositeInitOk (numStrategies : Nat) (mode : CompositeMode)
    (weights : Option (List ℚ)) : Bool :=
  if numStrategies = 0 then false
  else if mode = CompositeMode.weighted then
    match weights with
    | none => false
    | some ws =>
        if ws = [] ∨ ws.length ≠ numStrategies then false
        else if |ws.sum - 1| > 1 / 1000 then false
        else true
  else true

/-! ## Swap execution (src/blockchain/trader.py) -/

/-- A 64-byte signature slot, as a list of byte values. -/
abbrev Sig64 : Type := List Nat

/-- The all-zero placeholder signature `bytes(64)`
(trader.py line 166). -/
def zeroSig : Sig64 := List.replicate 64 0

/-- A decoded versioned transaction: its signature slots and an opaque
message (trader.py line 161, VersionedTransaction.from_bytes). -/
structure VersionedTx where
  signatures : List Sig64
  message : Nat
deriving DecidableEq, Repr

/-- The response of the Jupiter swap-build endpoint, after base64
decoding and parsing (trader.py lines 141-161).  swapTransaction is
none when the field is missing/empty or the bytes fail to parse (both
caught paths return None without a submission). -/
structure SwapResponse where
  swapTransaction : Option VersionedTx
  simulationError : Option String

/-- Environment for one execute_swap call: the (retried, absorbed)
result of _get_swap_transaction, the wallet signer
keypair.sign_message ∘ to_bytes_versioned, and the RPC
send_transaction call (itself Option-valued: client.py absorbs all
submission errors). -/
structure SwapEnv where
  swapResponse : Option SwapResponse
  signMessage : Nat → Sig64
  sendTransaction : VersionedTx → Option String

/-- JupiterTrader.execute_swap (trader.py lines 120-210), instrumented
with the list of transactions actually submitted to the network.
Mirrors the source: a simulationError in the swap response is only
logged (lines 146-150) and execution proceeds; the first signature slot
decides at runtime between submitting as-is and signing the message and
populating a fresh signature (lines 164-200); every caught exception
path returns none with no submission. -/
def executeSwap (env : SwapEnv) : Option String × List VersionedTx :=
  match env.swapResponse with
  | none => (none, [])
  | some resp =>
    match resp.swapTransaction with
    | none => (none, [])
    | some tx =>
      match tx.signatures with
      | [] => (none, [])
      | s :: _ =>
        if s ≠ zeroSig then
          (env.sendTransaction tx, [tx])
        else
          let signedTx : VersionedTx :=
            ⟨[env.signMessage tx.message], tx.message⟩
          (env.sendTransaction signedTx, [signedTx])

/-- Environment for a buy_sol_with_usdc / sell_sol_for_usdc call: the
result of the get_quote request issued at outer attempt i (quotes
modelled as opaque Nat identities), and the outcome of execute_swap on
a given quote. -/
structure OrderEnv where
  getQuote : Nat → Option Nat
  execSwap : Nat → Option String

/-- The shared outer retry loop of JupiterTrader.buy_sol_with_usdc
(lines 285-312) and sell_sol_for_usdc (lines 341-368), instrumented
with the trace of (attempt index, quote) pairs passed to execute_swap.
i is the current attempt index, fuel the number of attempts remaining
(the Python loop runs max_quote_retries + 1 attempts); each iteration
requests a fresh quote, skips the attempt if no quote was obtained,
executes the quote once and returns on success. -/
def orderLoop (env : OrderEnv) : Nat → Nat → Option String × List (Nat × Nat)
  | _, 0 => (none, [])
  | i, fuel + 1 =>
    match env.getQuote i with
    | none => orderLoop env (i + 1) fuel
    | some q =>
      match env.execSwap q with
      | some s => (some s, [(i, q)])
      | none =>
        let rest := orderLoop env (i + 1) fuel
        (rest.1, (i, q) :: rest.2)

/-- JupiterTrader.buy_sol_with_usdc (trader.py lines 258-312): result of
the outer retry loop over max_quote_retries + 1 attempts. -/
def buySolWithUsdc (env : OrderEnv) (maxQuoteRetries : Nat) : Option String :=
  (orderLoop env 0 (maxQuoteRetries + 1)).1

/-- The execution trace of buy_sol_with_usdc: which quote was passed to
execute_swap at which attempt. -/
def buyTrace (env : OrderEnv) (maxQuoteRetries : Nat) : List (Nat × Nat) :=
  (orderLoop env 0 (maxQuoteRetries + 1)).2

/-- JupiterTrader.sell_sol_for_usdc (trader.py lines 314-368): identical
outer retry structure to the buy path. -/
def sellSolForUsdc (env : OrderEnv) (maxQuoteRetries : Nat) : Option String :=
  (orderLoop env 0 (maxQuoteRetries + 1)).1

/-- The execution trace of sell_sol_for_usdc. -/
def sellTrace (env : OrderEnv) (maxQuoteRetries : Nat) : List (Nat × Nat) :=
  (orderLoop env 0 (maxQuoteRetries + 1)).2

/-! ## Confirmation polling (src/blockchain/client.py) -/

/-- Confirmation levels reported by get_signature_statuses; the source
matches the stringified level against "Confirmed"/"Finalized"
substrings (client.py line 253), which for the solders enum holds
exactly for the confirmed and finalized levels. -/
inductive ConfLevel
  | processed
  | confirmed
  | finalized
deriving DecidableEq, Repr

/-- One transaction status entry: optional confirmation level and
optional execution error. -/
structure TxStatus where
  confirmationStatus : Option ConfLevel
  err : Option String
deriving DecidableEq, Repr

/-- The outcome of one get_signature_statuses poll: an exception
(caught, client.py lines 265-267), or the response value, a list whose
entries may be null. -/
inductive PollOutcome
  | exc
  | value (statuses : List (Option TxStatus))

/-- Whether a confirmation level is terminal per line 253. -/
def isTerminalLevel : ConfLevel → Bool
  | ConfLevel.processed => false
  | ConfLevel.confirmed => true
  | ConfLevel.finalized => true

/-- One iteration of the polling loop body (client.py lines 238-267):
some r means the function returns r, none means it sleeps and polls
again.  The confirmation check (lines 247-255) precedes the error check
(lines 258-260); an empty/None response value, a null status entry and
a caught exception all continue the loop. -/
def confirmStep (p : PollOutcome) : Option Bool :=
  match p with
  | PollOutcome.exc => none
  | PollOutcome.value statuses =>
    match statuses with
    | [] => none
    | none :: _ => none
    | some st :: _ =>
      if (match st.confirmationStatus with
          | some lvl => isTerminalLevel lvl
          | none => false) then some true
      else if st.err.isSome then some false
      else none

/-- The polling loop with a poll budget (the number of iterations the
max_wait_seconds / poll_interval time window admits); i is the index of
the next poll.  Exhausting the budget is the timeout path (client.py
lines 269-270): return false. -/
def confirmLoop (polls : Nat → PollOutcome) : Nat → Nat → Bool
  | _, 0 => false
  | i, fuel + 1 =>
    match confirmStep (polls i) with
    | some r => r
    | none => confirmLoop polls (i + 1) fuel

/-- SolanaClient.confirm_transaction (client.py lines 213-270). -/
def confirmTransaction (polls : Nat → PollOutcome) (budget : Nat) : Bool :=
  confirmLoop polls 0 budget

/-! ## State persistence (src/utils/state.py) -/

/-- JSON values, the unit of persistence (state.py stores dicts via
json.dump/json.load). -/
inductive Json
  | null
  | bool (b : Bool)
  | num (q : ℚ)
  | str (s : String)
  | arr (items : List Json)
  | obj (fields : List (String × Json))

/-- The canonical state file as the loop observes it: absent (first
run), unparseable (corrupted JSON / IO failure on read), or holding a
parsed JSON value. -/
inductive FileState
  | absent
  | corrupt
  | content (j : Json)

/-- First-match lookup of a key in a JSON-object field list (Python
dict indexing; dict keys are unique, assoc-list first match agrees). -/
def lookupField (fields : List (String × Json)) (key : String) : Option Json :=
  match fields with
  | [] => none
  | (k, v) :: rest => if k = key then some v else lookupField rest key

/-- Key assignment `d[key] = v` on a JSON-object field list: replace
the first binding of the key, or append the binding if absent. -/
def setField (fields : List (String × Json)) (key : String) (v : Json) :
    List (String × Json) :=
  match fields with
  | [] => [(key, v)]
  | (k, w) :: rest =>
      if k = key then (k, v) :: rest else (k, w) :: setField rest key v

/-- StateManager._get_default_state (state.py lines 142-156); now is the
datetime.utcnow().isoformat() timestamp. -/
def defaultStateFields (now : String) : List (String × Json) :=
  [("position", Json.str "flat"),
   ("entry_price", Json.null),
   ("entry_time", Json.null),
   ("entry_amount_usdc", Json.null),
   ("last_updated", Json.str now),
   ("strategy_state", Json.obj [])]

/-- StateManager.load_state (state.py lines 44-67): a missing file and a
file that fails to parse both yield the default state; a parsed file
yields its content.  All read errors are caught (lines 63-67). -/
def loadState (now : String) (fs : FileState) : Json :=
  match fs with
  | FileState.absent => Json.obj (defaultStateFields now)
  | FileState.corrupt => Json.obj (defaultStateFields now)
  | FileState.content j => j

/-- StateManager.save_state (state.py lines 69-108) on a state
dictionary: stamp last_updated with the current time (line 82), then
atomically replace the state file with the serialized dictionary
(lines 84-97).  json.dump/json.load round-trip on JSON values is the
file abstraction here. -/
def saveState (stateFields : List (String × Json)) (now : String)
    (_fs : FileState) : FileState :=
  FileState.content (Json.obj (setField stateFields "last_updated" (Json.str now)))

/-! ## Pre-flight balance check (src/blockchain/wallet.py, src/main.py) -/

/-- Wallet.validate_balance (wallet.py lines 112-147): balanceResult is
the (Option-valued) USDC balance query; a failed query fails
validation; otherwise validation passes iff the balance is at least
required * (1 + bufferPercent / 100). -/
def validateBalance (balanceResult : Option ℚ) (requiredUsdc : ℚ)
    (bufferPercent : ℚ) : Bool :=
  match balanceResult with
  | none => false
  | some balance => decide (balance ≥ requiredUsdc * (1 + bufferPercent / 100))

/-- TradingBot._execute_buy (main.py lines 587-615), instrumented: the
balance check is called with the default 5% buffer (the call site
passes no buffer_percent); on failure the order is aborted before the
trader is invoked, so no quote request happens.  Returns the order
result together with the trace of quotes requested (orderLoop attempt
indices whose getQuote call was issued). -/
def executeBuy (balanceResult : Option ℚ) (positionSize : ℚ)
    (env : OrderEnv) (maxQuoteRetries : Nat) :
    Option String × List (Nat × Nat) :=
  if validateBalance balanceResult positionSize 5 then
    orderLoop env 0 (maxQuoteRetries + 1)
  else
    (none, [])

/-- Whether _execute_buy invoked the trader at all (and hence whether
any quote request was issued). -/
def executeBuyInvokesTrader (balanceResult : Option ℚ) (positionSize : ℚ) :
    Bool :=
  validateBalance balanceResult positionSize 5

/-! ## Theorems -/

/-- Claim C1: for every strategy and every price, get_signal(price) first
invokes update(price) (the decision is taken on the updated state), then
returns BUY exactly when the position is FLAT and should_buy(price) is
true, SELL exactly when the position is LONG and should_sell(price) is
true, and HOLD in every other case; should_buy is consulted exactly when
FLAT and should_sell exactly when LONG. -/
theorem C1_get_signal {σ : Type} (impl : StrategyImpl σ) (s : StratData σ)
    (p : ℚ) :
    (getSignal impl s p = Signal.buy ↔
       (impl.update s p).position = Position.flat ∧
       impl.shouldBuy (impl.update s p) p = true) ∧
    (getSignal impl s p = Signal.sell ↔
       (impl.update s p).position = Position.long ∧
       impl.shouldSell (impl.update s p) p = true) ∧
    (getSignal impl s p = Signal.hold ↔
       ¬((impl.update s p).position = Position.flat ∧
          impl.shouldBuy (impl.update s p) p = true) ∧
       ¬((impl.update s p).position = Position.long ∧
          impl.shouldSell (impl.update s p) p = true)) ∧
    ((getSignalTraced impl s p).2.1 = true ↔
       (impl.update s p).position = Position.flat) ∧
    ((getSignalTraced impl s p).2.2 = true ↔
       (impl.update s p).position = Position.long) := by
  unfold getSignal getSignalTraced
  by_cases hpos : (impl.update s p).position = Position.flat
  · by_cases hb : impl.shouldBuy (impl.update s p) p = true
    · simp [hpos, hb]
    · simp [hpos, hb]
  · have hlong : (impl.update s p).position = Position.long := by
      cases hp : (impl.update s p).position
      · exact absurd hp hpos
      · rfl
    by_cases hs : impl.shouldSell (impl.update s p) p = true
    · simp [hpos, hlong, hs]
    · simp [hpos, hlong, hs]

/-- A concrete strategy that always wants to buy, used to instantiate
the C1 theorem. -/
def c1Impl : StrategyImpl Unit :=
  ⟨fun s _ => s, fun _ _ => true, fun _ _ => false⟩

/-- Instantiation of the C1 theorem: a FLAT strategy whose should_buy
holds produces a BUY signal. -/
theorem C1_get_signal_witness :
    getSignal c1Impl ⟨Position.flat, none, ()⟩ 3 = Signal.buy :=
  (C1_get_signal c1Impl ⟨Position.flat, none, ()⟩ 3).1.mpr ⟨rfl, rfl⟩

/-- Claim C2: in WEIGHTED mode, should_buy (and should_sell) returns
true iff the sum of the weights of the true votes is strictly greater
than 0.5; a score of exactly 0.5 is not a signal. -/
theorem C2_weighted_threshold (c : CompositeStrategy) (p : ℚ)
    (hmode : c.mode = CompositeMode.weighted) :
    (c.shouldBuy p = true ↔
       weightedScore (c.subsBuy.map (fun f => f p)) c.weights > 1 / 2) ∧
    (c.shouldSell p = true ↔
       weightedScore (c.subsSell.map (fun f => f p)) c.weights > 1 / 2) ∧
    (weightedScore (c.subsBuy.map (fun f => f p)) c.weights = 1 / 2 →
       c.shouldBuy p = false) := by
  refine ⟨?_, ?_, ?_⟩
  · simp [CompositeStrategy.shouldBuy, combineSignals, hmode]
  · simp [CompositeStrategy.shouldSell, combineSignals, hmode]
  · intro hscore
    simp [CompositeStrategy.shouldBuy, combineSignals, hmode, hscore]

/-- The boundary composite from the spec: weights [0.5, 0.5], buy votes
[true, false]. -/
def c2Strat : CompositeStrategy :=
  ⟨[fun _ => true, fun _ => false], [fun _ => true, fun _ => false],
   CompositeMode.weighted, [1 / 2, 1 / 2]⟩

/-- Instantiation of the C2 theorem at the spec boundary example: score
exactly 0.5 is not a buy signal. -/
theorem C2_weighted_threshold_witness : c2Strat.shouldBuy 0 = false :=
  (C2_weighted_threshold c2Strat 0 rfl).2.2
    (by norm_num [c2Strat, weightedScore])

/-- Claim C9: CompositeStrategy construction succeeds iff the
sub-strategy list is nonempty and, when WEIGHTED mode is selected, a
weights list of matching length whose sum is within 0.001 of 1.0 is
supplied; validation happens in the constructor (evaluation is total
and performs no such check). -/
theorem C9_composite_init (n : Nat) (mode : CompositeMode)
    (weights : Option (List ℚ)) :
    compositeInitOk n mode weights = true ↔
      n ≠ 0 ∧ (mode = CompositeMode.weighted →
        ∃ ws, weights = some ws ∧ ws.length = n ∧ |ws.sum - 1| ≤ 1 / 1000) := by
  unfold compositeInitOk
  by_cases hn : n = 0
  · simp [hn]
  · by_cases hm : mode = CompositeMode.weighted
    · subst hm
      rw [if_neg hn, if_pos rfl]
      cases weights with
      | none => simp [hn]
      | some ws =>
        dsimp only
        constructor
        · intro h
          refine ⟨hn, fun _ => ?_⟩
          split_ifs at h with h1 h2
          push_neg at h1 h2
          exact ⟨ws, rfl, h1.2, h2⟩
        · rintro ⟨-, himp⟩
          obtain ⟨ws2, hws2, hlen, hsum⟩ := himp rfl
          obtain rfl : ws = ws2 := Option.some.inj hws2
          have h1 : ¬(ws = [] ∨ ws.length ≠ n) := by
            push_neg
            refine ⟨?_, hlen⟩
            intro hnil
            subst hnil
            simp at hlen
            exact hn hlen.symm
          rw [if_neg h1, if_neg (not_lt.mpr hsum)]
    · rw [if_neg hn, if_neg hm]
      simp [hn, hm]

/-- Instantiation of the C9 theorem: a two-strategy MAJORITY composite
with no weights constructs successfully. -/
theorem C9_composite_init_witness :
    compositeInitOk 2 CompositeMode.majority none = true :=
  (C9_composite_init 2 CompositeMode.majority none).mpr
    ⟨by decide, fun h => absurd h (by decide)⟩

/-- Setting one key leaves the lookup of every other key unchanged. -/
theorem lookupField_setField_ne (fields : List (String × Json))
    (key k : String) (v : Json) (h : k ≠ key) :
    lookupField (setField fields key v) k = lookupField fields k := by
  induction fields with
  | nil =>
    simp only [setField, lookupField]
    rw [if_neg (Ne.symm h)]
  | cons hd tl ih =>
    obtain ⟨k0, v0⟩ := hd
    simp only [setField]
    by_cases hk0 : k0 = key
    · rw [if_pos hk0]
      simp only [lookupField]
      subst hk0
      rw [if_neg (fun hc => h hc.symm), if_neg (fun hc => h hc.symm)]
    · rw [if_neg hk0]
      simp only [lookupField]
      by_cases hkk : k0 = k
      · rw [if_pos hkk, if_pos hkk]
      · rw [if_neg hkk, if_neg hkk]
        exact ih

/-- Claim C7: save_state(s) followed by load_state() yields a state
dictionary equal to s on the fields position, entry_price and
strategy_state (only last_updated is rewritten by the save). -/
theorem C7_save_load_roundtrip (stateFields : List (String × Json))
    (now now2 : String) (fs : FileState) :
    ∃ loadedFields,
      loadState now2 (saveState stateFields now fs) = Json.obj loadedFields ∧
      lookupField loadedFields "position" = lookupField stateFields "position" ∧
      lookupField loadedFields "entry_price" =
        lookupField stateFields "entry_price" ∧
      lookupField loadedFields "strategy_state" =
        lookupField stateFields "strategy_state" :=
  ⟨setField stateFields "last_updated" (Json.str now), rfl,
   lookupField_setField_ne stateFields "last_updated" "position"
     (Json.str now) (by decide),
   lookupField_setField_ne stateFields "last_updated" "entry_price"
     (Json.str now) (by decide),
   lookupField_setField_ne stateFields "last_updated" "strategy_state"
     (Json.str now) (by decide)⟩

/-- Claim C8: load_state returns the default state both when the state
file is absent and when it fails to parse, and that default has
position "flat", entry_price null and empty strategy_state; the two
failure modes are behaviorally identical. -/
theorem C8_load_default (now : String) :
    loadState now FileState.absent = Json.obj (defaultStateFields now) ∧
    loadState now FileState.corrupt = Json.obj (defaultStateFields now) ∧
    loadState now FileState.absent = loadState now FileState.corrupt ∧
    lookupField (defaultStateFields now) "position" =
      some (Json.str "flat") ∧
    lookupField (defaultStateFields now) "entry_price" = some Json.null ∧
    lookupField (defaultStateFields now) "strategy_state" =
      some (Json.obj []) := by
  refine ⟨rfl, rfl, rfl, ?_, ?_, ?_⟩ <;> simp [defaultStateFields, lookupField]

/-- Claim C10: the pre-flight buy balance check passes iff the USDC
balance is known and at least 1.05 times the requested position size
(5% default fee buffer); a balance equal to a positive position size
fails, and a failed check aborts _execute_buy before any quote request
is issued. -/
theorem C10_balance_buffer (b r : ℚ) (env : OrderEnv) (m : Nat) :
    (validateBalance (some b) r 5 = true ↔ b ≥ r * (21 / 20)) ∧
    (0 < r → validateBalance (some r) r 5 = false) ∧
    validateBalance none r 5 = false ∧
    (validateBalance (some b) r 5 = false →
      executeBuy (some b) r env m = (none, [])) := by
  have hbuf : r * (1 + (5 : ℚ) / 100) = r * (21 / 20) := by ring
  refine ⟨?_, ?_, rfl, ?_⟩
  · simp [validateBalance, hbuf]
  · intro hr
    simp only [validateBalance, hbuf, decide_eq_false_iff_not, not_le, ge_iff_le]
    nlinarith
  · intro hfail
    simp [executeBuy, hfail]

/-- An order environment with no quotes available, used to instantiate
theorems about the retry loops. -/
def envNoQuotes : OrderEnv := ⟨fun _ => none, fun _ => none⟩

/-- Instantiation of the C10 theorem: balance exactly equal to a
positive position size aborts the buy before any quote request. -/
theorem C10_balance_buffer_witness :
    executeBuy (some 1) 1 envNoQuotes 2 = (none, []) :=
  (C10_balance_buffer 1 1 envNoQuotes 2).2.2.2
    ((C10_balance_buffer 1 1 envNoQuotes 2).2.1 (by norm_num))

/-- If every obtained quote fails to execute, the outer loop ends with
no signature. -/
theorem orderLoop_all_fail (env : OrderEnv)
    (h : ∀ i q, env.getQuote i = some q → env.execSwap q = none) :
    ∀ fuel i, (orderLoop env i fuel).1 = none := by
  intro fuel
  induction fuel with
  | zero => intro i; rfl
  | succ fuel ih =>
    intro i
    simp only [orderLoop]
    cases hq : env.getQuote i with
    | none => exact ih (i + 1)
    | some q =>
      dsimp only
      rw [h i q hq]
      exact ih (i + 1)

/-- Every execution recorded by the loop used the quote freshly
requested at its own attempt index, and that index is at least the
starting index. -/
theorem orderLoop_trace_fresh (env : OrderEnv) :
    ∀ fuel i p, p ∈ (orderLoop env i fuel).2 →
      i ≤ p.1 ∧ env.getQuote p.1 = some p.2 := by
  intro fuel
  induction fuel with
  | zero => intro i p hp; cases hp
  | succ fuel ih =>
    intro i p hp
    simp only [orderLoop] at hp
    cases hq : env.getQuote i with
    | none =>
      rw [hq] at hp
      have := ih (i + 1) p hp
      exact ⟨by omega, this.2⟩
    | some q =>
      rw [hq] at hp
      dsimp only at hp
      cases hr : env.execSwap q with
      | some s =>
        rw [hr] at hp
        simp only [List.mem_singleton] at hp
        subst hp
        exact ⟨le_refl i, hq⟩
      | none =>
        rw [hr] at hp
        simp only [List.mem_cons] at hp
        rcases hp with hp | hp
        · subst hp
          exact ⟨le_refl i, hq⟩
        · have := ih (i + 1) p hp
          exact ⟨by omega, this.2⟩

/-- The attempt indices in the execution trace are strictly
increasing: no attempt, and hence no requested quote, is executed
twice. -/
theorem orderLoop_trace_mono (env : OrderEnv) :
    ∀ fuel i, ((orderLoop env i fuel).2).Pairwise (fun a b => a.1 < b.1) := by
  intro fuel
  induction fuel with
  | zero => intro i; exact List.Pairwise.nil
  | succ fuel ih =>
    intro i
    simp only [orderLoop]
    cases hq : env.getQuote i with
    | none => exact ih (i + 1)
    | some q =>
      dsimp only
      cases hr : env.execSwap q with
      | some s => simp
      | none =>
        dsimp only
        refine List.Pairwise.cons ?_ (ih (i + 1))
        intro p hp
        have := orderLoop_trace_fresh env fuel (i + 1) p hp
        omega

/-- Claim C3: for buy and sell orders alike, each outer attempt that
executes does so on the quote freshly requested at that attempt, no
attempt's quote is ever re-executed, and when every obtained quote
fails to execute the overall call returns no signature. -/
theorem C3_retry_fresh_quotes (env : OrderEnv) (maxQuoteRetries : Nat) :
    ((∀ i q, env.getQuote i = some q → env.execSwap q = none) →
       buySolWithUsdc env maxQuoteRetries = none ∧
       sellSolForUsdc env maxQuoteRetries = none) ∧
    (∀ p ∈ buyTrace env maxQuoteRetries, env.getQuote p.1 = some p.2) ∧
    (buyTrace env maxQuoteRetries).Pairwise (fun a b => a.1 < b.1) ∧
    (∀ p ∈ sellTrace env maxQuoteRetries, env.getQuote p.1 = some p.2) ∧
    (sellTrace env maxQuoteRetries).Pairwise (fun a b => a.1 < b.1) := by
  refine ⟨?_, ?_, ?_, ?_, ?_⟩
  · intro h
    exact ⟨orderLoop_all_fail env h (maxQuoteRetries + 1) 0,
           orderLoop_all_fail env h (maxQuoteRetries + 1) 0⟩
  · intro p hp
    exact (orderLoop_trace_fresh env (maxQuoteRetries + 1) 0 p hp).2
  · exact orderLoop_trace_mono env (maxQuoteRetries + 1) 0
  · intro p hp
    exact (orderLoop_trace_fresh env (maxQuoteRetries + 1) 0 p hp).2
  · exact orderLoop_trace_mono env (maxQuoteRetries + 1) 0

/-- An order environment where every quote request succeeds and every
execution fails. -/
def envAllFail : OrderEnv := ⟨fun i => some i, fun _ => none⟩

/-- Instantiation of the C3 theorem: with the default two quote
retries, a run where every execution fails returns no signature. -/
theorem C3_retry_fresh_quotes_witness : buySolWithUsdc envAllFail 2 = none :=
  ((C3_retry_fresh_quotes envAllFail 2).1 (fun _ _ _ => rfl)).1

/-- A 64-byte signature of all ones: a populated, non-placeholder
signature slot. -/
def oneSig : Sig64 := List.replicate 64 1

/-- An already-signed transaction returned by the aggregator. -/
def tx0 : VersionedTx := ⟨[oneSig], 7⟩

/-- A swap environment whose build response reports a simulation error
on an otherwise valid, already-signed transaction, and whose
submission succeeds. -/
def envSimErr : SwapEnv :=
  ⟨some ⟨some tx0, some "SlippageToleranceExceeded"⟩,
   fun _ => List.replicate 64 2,
   fun _ => some "SIG1"⟩

/-- Claim C4 counterexample: when the swap-build response reports a
simulation error, execute_swap does not discard the quote — it still
submits the transaction (and here even returns its signature), so an
attempt with a simulation error is not restarted from a fresh quote
without submission. -/
theorem C4_counterexample :
    envSimErr.swapResponse =
      some ⟨some tx0, some "SlippageToleranceExceeded"⟩ ∧
    (executeSwap envSimErr).2 = [tx0] ∧
    (executeSwap envSimErr).1 = some "SIG1" := by
  refine ⟨rfl, ?_, ?_⟩ <;>
    simp [executeSwap, envSimErr, tx0, oneSig, zeroSig]

/-- Claim C4 amended: execute_swap performs at most one submission per
quote, and whenever the build response parses to a transaction with a
signature slot it submits it regardless of any reported simulation
error (the error is only logged); the quote is discarded in favour of
a fresh one only when the attempt as a whole yields no signature. -/
theorem C4_simulation_error_still_submits (env : SwapEnv) :
    (executeSwap env).2.length ≤ 1 ∧
    (∀ resp tx s rest,
      env.swapResponse = some resp →
      resp.swapTransaction = some tx →
      tx.signatures = s :: rest →
      (executeSwap env).2.length = 1) := by
  constructor
  · cases hresp : env.swapResponse with
    | none => simp [executeSwap, hresp]
    | some resp =>
      cases htx : resp.swapTransaction with
      | none => simp [executeSwap, hresp, htx]
      | some tx =>
        cases hsig : tx.signatures with
        | nil => simp [executeSwap, hresp, htx, hsig]
        | cons s rest =>
          by_cases hs : s = zeroSig
          · simp [executeSwap, hresp, htx, hsig, hs]
          · simp [executeSwap, hresp, htx, hsig, hs]
  · intro resp tx s rest h1 h2 h3
    by_cases hs : s = zeroSig
    · simp [executeSwap, h1, h2, h3, hs]
    · simp [executeSwap, h1, h2, h3, hs]

/-- Instantiation of the amended C4 theorem at the counterexample
environment: exactly one submission happens there. -/
theorem C4_simulation_error_still_submits_witness :
    (executeSwap envSimErr).2.length = 1 :=
  (C4_simulation_error_still_submits envSimErr).2
    ⟨some tx0, some "SlippageToleranceExceeded"⟩ tx0 oneSig [] rfl rfl rfl

/-- Claim C5: execute_swap inspects the first signature slot at
runtime: a non-placeholder slot makes it submit the aggregator's
transaction as-is, a placeholder (64 zero bytes) makes it sign the
transaction's message with the wallet keypair and submit the
transaction populated with that fresh signature. -/
theorem C5_signing_branch (env : SwapEnv) (resp : SwapResponse)
    (tx : VersionedTx) (s : Sig64) (rest : List Sig64)
    (h1 : env.swapResponse = some resp)
    (h2 : resp.swapTransaction = some tx)
    (h3 : tx.signatures = s :: rest) :
    (s ≠ zeroSig → executeSwap env = (env.sendTransaction tx, [tx])) ∧
    (s = zeroSig →
      executeSwap env =
        (env.sendTransaction ⟨[env.signMessage tx.message], tx.message⟩,
         [⟨[env.signMessage tx.message], tx.message⟩])) := by
  constructor
  · intro hs
    simp [executeSwap, h1, h2, h3, hs]
  · intro hs
    simp [executeSwap, h1, h2, h3, hs]

/-- A transaction whose signature slot is the 64-zero-byte
placeholder. -/
def txZero : VersionedTx := ⟨[zeroSig], 5⟩

/-- A swap environment returning the placeholder-signed transaction. -/
def envNeedsSign : SwapEnv :=
  ⟨some ⟨some txZero, none⟩, fun m => List.replicate 64 m,
   fun _ => some "SIG2"⟩

/-- Instantiation of the C5 theorem on the placeholder branch: the bot
signs the message and submits the populated transaction. -/
theorem C5_signing_branch_witness :
    executeSwap envNeedsSign = (some "SIG2", [⟨[List.replicate 64 5], 5⟩]) :=
  (C5_signing_branch envNeedsSign ⟨some txZero, none⟩ txZero zeroSig []
    rfl rfl rfl).2 rfl

/-- A polled status that is both confirmed and errored: a transaction
that executed with an on-chain error and then reached the confirmed
commitment level. -/
def errConfirmedStatus : TxStatus :=
  ⟨some ConfLevel.confirmed, some "InstructionError"⟩

/-- Polls that always report the confirmed-but-errored status. -/
def pollsErrConfirmed : Nat → PollOutcome :=
  fun _ => PollOutcome.value [some errConfirmedStatus]

/-- Claim C6 counterexample: a status that reports an execution error
while also reporting the confirmed level makes confirm_transaction
return true, because the confirmation check precedes the error check;
the claim's universal "returns false on a status reporting an
execution error" is therefore false. -/
theorem C6_counterexample :
    errConfirmedStatus.err = some "InstructionError" ∧
    confirmTransaction pollsErrConfirmed 5 = true := by
  constructor
  · rfl
  · simp [confirmTransaction, confirmLoop, confirmStep, pollsErrConfirmed,
      errConfirmedStatus, isTerminalLevel]

/-- If the polling loop returns true, some poll within the budget took
the terminal-confirmation branch. -/
theorem confirmLoop_true_exists (polls : Nat → PollOutcome) :
    ∀ fuel i, confirmLoop polls i fuel = true →
      ∃ j, j < fuel ∧ confirmStep (polls (i + j)) = some true := by
  intro fuel
  induction fuel with
  | zero => intro i h; cases h
  | succ fuel ih =>
    intro i h
    simp only [confirmLoop] at h
    cases hstep : confirmStep (polls i) with
    | none =>
      rw [hstep] at h
      obtain ⟨j, hj, hterm⟩ := ih (i + 1) h
      refine ⟨j + 1, by omega, ?_⟩
      have : i + (j + 1) = i + 1 + j := by omega
      rw [this]
      exact hterm
    | some r =>
      rw [hstep] at h
      cases r with
      | true => exact ⟨0, by omega, by simpa using hstep⟩
      | false => cases h

/-- If no poll within the budget takes the terminal branch, the loop
returns false (both the timeout path and the error-return path). -/
theorem confirmLoop_false_of_no_terminal (polls : Nat → PollOutcome) :
    ∀ fuel i, (∀ j, j < fuel → confirmStep (polls (i + j)) ≠ some true) →
      confirmLoop polls i fuel = false := by
  intro fuel
  induction fuel with
  | zero => intro i _; rfl
  | succ fuel ih =>
    intro i h
    simp only [confirmLoop]
    cases hstep : confirmStep (polls i) with
    | none =>
      refine ih (i + 1) ?_
      intro j hj
      have : i + 1 + j = i + (j + 1) := by omega
      rw [this]
      exact h (j + 1) (by omega)
    | some r =>
      cases r with
      | true =>
        exact absurd (by simpa using hstep) (h 0 (by omega))
      | false => rfl

/-- Claim C6 amended: confirm_transaction returns true only when some
poll within the wait budget observes a terminal confirmed/finalized
status; with no such observation it returns false — on timeout, and
immediately when a poll observes an execution error on a status that
has not reached a terminal level (a status that is both errored and
confirmed returns true, as the confirmation check runs first); no
outcome raises.  The terminal branch fires exactly on a first status
entry whose confirmation level is confirmed or finalized. -/
theorem C6_confirm_polling (polls : Nat → PollOutcome) (budget : Nat) :
    (confirmTransaction polls budget = true →
       ∃ j, j < budget ∧ confirmStep (polls j) = some true) ∧
    ((∀ j, j < budget → confirmStep (polls j) ≠ some true) →
       confirmTransaction polls budget = false) ∧
    (confirmStep (polls 0) = some false → 0 < budget →
       confirmTransaction polls budget = false) ∧
    (∀ p, confirmStep p = some true ↔
       ∃ st rest, p = PollOutcome.value (some st :: rest) ∧
         ∃ lvl, st.confirmationStatus = some lvl ∧
           isTerminalLevel lvl = true) := by
  refine ⟨?_, ?_, ?_, ?_⟩
  · intro h
    have := confirmLoop_true_exists polls budget 0 h
    simpa using this
  · intro h
    refine confirmLoop_false_of_no_terminal polls budget 0 ?_
    intro j hj
    simpa using h j hj
  · intro hstep hpos
    cases budget with
    | zero => omega
    | succ fuel =>
      simp only [confirmTransaction, confirmLoop, hstep]
  · intro p
    constructor
    · intro h
      cases p with
      | exc => cases h
      | value statuses =>
        cases statuses with
        | nil => cases h
        | cons hd tl =>
          cases hd with
          | none => cases h
          | some st =>
            refine ⟨st, tl, rfl, ?_⟩
            simp only [confirmStep] at h
            cases hcs : st.confirmationStatus with
            | none =>
              rw [hcs] at h
              simp at h
            | some lvl =>
              rw [hcs] at h
              by_cases hterm : isTerminalLevel lvl = true
              · exact ⟨lvl, rfl, hterm⟩
              · simp only [hterm] at h
                simp at h
    · rintro ⟨st, rest, rfl, lvl, hcs, hterm⟩
      simp [confirmStep, hcs, hterm]

/-- Polls that immediately report a finalized status. -/
def pollsFinalized : Nat → PollOutcome :=
  fun _ => PollOutcome.value [some ⟨some ConfLevel.finalized, none⟩]

/-- Instantiation of the amended C6 theorem: a run that returns true
had a terminal status observed within the budget. -/
theorem C6_confirm_polling_witness :
    ∃ j, j < 3 ∧ confirmStep (pollsFinalized j) = some true :=
  (C6_confirm_polling pollsFinalized 3).1 rfl

end Helios
